import Mathlib

/-!
Shallow embedding of `EmuSkele.py` (an interactive Android AVD / system-dump
helper) and verification of its specified properties.

Python strings are embedded as `List Char` (`Str`); Python `None` /
optional values as `Option`; Python truthiness of an optional string
(`if x:`) as `optTruthy`.  The line-oriented output parser, the device-profile
selection heuristics, the AVD-creation command construction and the
connected-device chooser are translated function by function from the source.
Side-effecting code (subprocess invocation wrapped in `try`/`except`) is
embedded as a trace of attempted commands together with a normal-completion
flag, with an oracle saying which commands fail.
-/

/-- A Python string, embedded as its list of characters. -/
abbrev Str := List Char

/-- Literal helper: the character list of a Lean string literal. -/
def strL (s : String) : Str := s.toList

/-- Python `str.lower()` (ASCII case folding, as used by the script on
ASCII keyword data). -/
def lowerS (s : Str) : Str := s.map Char.toLower

/-- Python `str.lstrip()`: drop leading whitespace. -/
def lstripS (s : Str) : Str := s.dropWhile Char.isWhitespace

/-- Python `str.rstrip()`: drop trailing whitespace. -/
def rstripS (s : Str) : Str := (s.reverse.dropWhile Char.isWhitespace).reverse

/-- Python `str.strip()`: drop whitespace at both ends. -/
def stripS (s : Str) : Str := lstripS (rstripS s)

/-- Python `s.startswith(pre)`. -/
def startsWithS : Str → Str → Bool
  | [], _ => true
  | _ :: _, [] => false
  | p :: ps, c :: cs => p == c && startsWithS ps cs

/-- Python `needle in hay` (substring containment). -/
def containsS (needle : Str) : Str → Bool
  | [] => needle.isEmpty
  | c :: cs => startsWithS needle (c :: cs) || containsS needle cs

/-- Python `s.split(":", 1)[1]`: everything after the first colon
(total; the script only evaluates it on lines known to contain a colon). -/
def afterFirstColon (s : Str) : Str :=
  (s.dropWhile (fun c => !(c == ':'))).drop 1

/-- Helper for `splitLinesS`: `acc` holds the characters of the current
line in reverse. A newline emits the current line; a trailing newline
emits no extra empty line (matching Python `splitlines`). -/
def splitLinesAux : Str → Str → List Str
  | [], acc => [acc.reverse]
  | c :: cs, acc =>
    if c == '\n' then
      acc.reverse :: (if cs.isEmpty then [] else splitLinesAux cs [])
    else
      splitLinesAux cs (c :: acc)

/-- Python `text.splitlines()` for newline-separated text. -/
def splitLinesS (s : Str) : List Str :=
  if s.isEmpty then [] else splitLinesAux s []

/-- Truthiness of a Python value that is `None` or a string:
`None` and `""` are falsy, every other string is truthy. -/
def optTruthy : Option Str → Bool
  | none => false
  | some s => !s.isEmpty

/-- A record parsed from `avdmanager list device` output: the `id:` value,
and the `name:` value when one was seen (`d.get("name", "")` reads it back
with `""` as default). -/
structure DeviceRecord where
  id : Str
  name : Option Str
deriving DecidableEq, Repr

/-- `d.get("name", "")` in the Python source. -/
def DeviceRecord.nameOr (d : DeviceRecord) : Str := d.name.getD []

/-- The line loop of `list_avd_devices`: each stripped line starting with
`id:` appends a fresh record (which becomes the current one), a line
starting with `name:` sets the name of the current record; lines arriving
before any `id:` line mutate only the initial throw-away dictionary, and
blank or other lines are skipped. `cur` is the current record, not yet
emitted; it is flushed when a new `id:` line starts or at the end. -/
def parseDeviceLines : List Str → Option DeviceRecord → List DeviceRecord
  | [], cur => cur.toList
  | l :: ls, cur =>
    let t := stripS l
    if t.isEmpty then
      parseDeviceLines ls cur
    else if startsWithS (strL "id:") t then
      cur.toList ++ parseDeviceLines ls (some ⟨stripS (afterFirstColon t), none⟩)
    else if startsWithS (strL "name:") t then
      match cur with
      | none => parseDeviceLines ls none
      | some c => parseDeviceLines ls (some ⟨c.id, some (stripS (afterFirstColon t))⟩)
    else
      parseDeviceLines ls cur

/-- `list_avd_devices`: split the captured stdout of
`avdmanager list device` into lines and run the line loop. -/
def list_avd_devices (out : Str) : List DeviceRecord :=
  parseDeviceLines (splitLinesS out) none

example : list_avd_devices (strL "id: 23\nname: \"pixel_5\"") =
    [⟨strL "23", some (strL "\"pixel_5\"")⟩] := by decide

example : list_avd_devices (strL "id: 1 or \"a\"\n  name: Alpha\nid: 2\nname: Beta\n") =
    [⟨strL "1 or \"a\"", some (strL "Alpha")⟩, ⟨strL "2", some (strL "Beta")⟩] := by decide

example : list_avd_devices (strL "id:") = [⟨[], none⟩] := by decide

/-- Configurable defaults of the script. -/
def DEFAULT_API_LEVEL : Str := strL "31"

/-- Default system-image tag. -/
def DEFAULT_TAG : Str := strL "google_apis"

/-- Default ABI. -/
def DEFAULT_ABI : Str := strL "x86_64"

/-- The package id `system-images;android-{api};{tag};{abi}`. -/
def sysImagePkg (api tag abi : Str) : Str :=
  strL "system-images;android-" ++ api ++ strL ";" ++ tag ++ strL ";" ++ abi

/-- The condition of the primary Samsung scan: the record's name,
lowercased, contains one of `galaxy`, `samsung`, `large`, `xlarge`. -/
def samsungNameHit (d : DeviceRecord) : Bool :=
  let n := lowerS d.nameOr
  containsS (strL "galaxy") n || containsS (strL "samsung") n ||
    containsS (strL "large") n || containsS (strL "xlarge") n

/-- The primary loop of `create_samsung_device`: first record whose name
matches a Samsung keyword yields its id. -/
def samsungPrimary : List DeviceRecord → Option Str
  | [] => none
  | d :: ds => if samsungNameHit d then some d.id else samsungPrimary ds

/-- The fallback condition: `fallback.lower()` occurs in the lowercased
name or in the lowercased id. -/
def fallbackHit (f : Str) (d : DeviceRecord) : Bool :=
  containsS (lowerS f) (lowerS d.nameOr) || containsS (lowerS f) (lowerS d.id)

/-- The inner fallback scan: first record matching the given fallback
string yields its id. -/
def fallbackScan (f : Str) : List DeviceRecord → Option Str
  | [] => none
  | d :: ds => if fallbackHit f d then some d.id else fallbackScan f ds

/-- The fixed ordered fallback list of `create_samsung_device`. -/
def samsungFallbackList : List Str :=
  [strL "pixel_6", strL "pixel_5", strL "Nexus 6", strL "Nexus 5X"]

/-- The outer fallback loop: for each fallback string in order, scan the
catalog; `preferred` is overwritten by a match, and the loop stops as soon
as `preferred` is truthy (so a match with an empty id does not stop it). -/
def samsungFallbackLoop : List Str → List DeviceRecord → Option Str → Option Str
  | [], _, preferred => preferred
  | f :: fs, devices, preferred =>
    let p := match fallbackScan f devices with
             | some i => some i
             | none => preferred
    if optTruthy p then p else samsungFallbackLoop fs devices p

/-- The device-profile selection of `create_samsung_device`: the primary
keyword scan, then (when its result is falsy) the fallback loop. -/
def create_samsung_device (devices : List DeviceRecord) : Option Str :=
  let preferred := samsungPrimary devices
  if optTruthy preferred then preferred
  else samsungFallbackLoop samsungFallbackList devices preferred

/-- The condition of the Pixel scan: name contains `pixel`, or the id
contains `pixel_6` or `pixel_3` (all case-insensitive). -/
def pixelHit (d : DeviceRecord) : Bool :=
  containsS (strL "pixel") (lowerS d.nameOr) ||
    containsS (strL "pixel_6") (lowerS d.id) ||
    containsS (strL "pixel_3") (lowerS d.id)

/-- The device-profile selection of `create_pixel_device`: first record
matching the Pixel condition yields its id. -/
def create_pixel_device : List DeviceRecord → Option Str
  | [] => none
  | d :: ds => if pixelHit d then some d.id else create_pixel_device ds

/-- The argument vector built by `create_avd`:
`avdmanager create avd --name <name> --package <pkg> --force`,
with `--device <profile>` appended only when the profile is truthy. -/
def avdCreateCmd (avdmanager_path name pkg : Str) (device_profile : Option Str) : List Str :=
  let cmd := [avdmanager_path, strL "create", strL "avd", strL "--name", name,
              strL "--package", pkg, strL "--force"]
  if optTruthy device_profile then cmd ++ [strL "--device", device_profile.getD []] else cmd

example : create_samsung_device
    [⟨strL "9", some (strL "Galaxy Nexus")⟩, ⟨strL "2", some (strL "pixel")⟩] =
    some (strL "9") := by decide

example : create_samsung_device [⟨strL "a", some (strL "pixel_5")⟩,
    ⟨strL "b", some (strL "pixel_6")⟩] = some (strL "b") := by decide

example : create_pixel_device (list_avd_devices (strL "id: 23\nname: \"pixel_5\"")) =
    some (strL "23") := by decide

/-- A side-effecting computation, embedded as the list of argument vectors
it hands to `subprocess.run` together with whether it completed normally
(`false` = an uncaught exception is propagating). -/
abbrev Proc := List (List Str) × Bool

/-- `run(cmd)` with `check=True`: attempts `cmd`; raises when the oracle
`fails` says the command exits non-zero. -/
def runP (fails : List Str → Bool) (cmd : List Str) : Proc :=
  ([cmd], !fails cmd)

/-- Sequencing: the second computation runs only when the first completed
normally. -/
def pseq : Proc → Proc → Proc
  | (t1, true), (t2, r2) => (t1 ++ t2, r2)
  | (t1, false), _ => (t1, false)

/-- `try`/`except` around a computation: the exception is caught (the
handler only prints), so the result always completes normally. -/
def pcatch : Proc → Proc
  | (t, _) => (t, true)

/-- A computation that runs no command ('print-and-return' paths). -/
def pskip : Proc := ([], true)

/-- `ensure_system_image`: when `sdkmanager` was found, run it on the
system-image package, catching `CalledProcessError`; otherwise only print. -/
def ensure_system_image (fails : List Str → Bool) (sdkmanager_path : Option Str)
    (api tag abi : Str) : Proc :=
  match sdkmanager_path with
  | none => pskip
  | some p => pcatch (runP fails [p, sysImagePkg api tag abi])

/-- `create_avd`: first `ensure_system_image` (with default tag and ABI),
then—when `avdmanager` was found—run the creation command, catching
`CalledProcessError`. -/
def create_avd (fails : List Str → Bool) (avdmanager_path sdkmanager_path : Option Str)
    (name : Str) (device_profile : Option Str) (api : Str) : Proc :=
  pseq (ensure_system_image fails sdkmanager_path api DEFAULT_TAG DEFAULT_ABI)
    (match avdmanager_path with
     | none => pskip
     | some p =>
       pcatch (runP fails
         (avdCreateCmd p name (sysImagePkg api DEFAULT_TAG DEFAULT_ABI) device_profile)))

/-- Python `int(s)` on an already-stripped string: an optional sign
followed by one or more decimal digits. -/
def digitsVal : Str → Option Nat
  | [] => none
  | [c] => if c.isDigit then some (c.toNat - 48) else none
  | c :: c2 :: cs =>
    if c.isDigit then
      match digitsVal (c2 :: cs) with
      | some n => some ((c.toNat - 48) * 10 ^ (c2 :: cs).length + n)
      | none => none
    else none

/-- Python `int(s)` (raises → `none`). -/
def pyInt : Str → Option Int
  | '-' :: rest => (digitsVal rest).map (fun n => -(n : Int))
  | '+' :: rest => (digitsVal rest).map (fun n => (n : Int))
  | s => (digitsVal s).map (fun n => (n : Int))

/-- Python list indexing `l[i]`: negative indices count from the end;
out-of-range raises (→ `none`). -/
def pyIndex {α : Type} (l : List α) (i : Int) : Option α :=
  let j := if i < 0 then i + l.length else i
  if 0 ≤ j then l.get? j.toNat else none

/-- `choose_connected_device`, after `adb devices` produced the given
(serial, state) pairs: empty list aborts; the input is stripped, an empty
input defaults to `"1"`; `int(choice) - 1` indexes the list, and any
exception (bad integer or bad index) is caught, printing `Invalid choice.`
and returning `None`. -/
def choose_connected_device (devices : List (Str × Str)) (input : Str) : Option Str :=
  if devices.isEmpty then none
  else
    let choice := stripS input
    let choice := if choice.isEmpty then strL "1" else choice
    match pyInt choice with
    | none => none
    | some n => (pyIndex devices (n - 1)).map Prod.fst

/-- The guard at the top of `create_system_image_dump`: the dump continues
past device selection only when the chosen serial is truthy. -/
def dumpProceeds (serial : Option Str) : Bool := optTruthy serial

/-- The two dump methods offered by `create_system_image_dump`. -/
inductive DumpMethod where
  | ddBlock
  | pullSystem
deriving DecidableEq, Repr

/-- The dump-method dispatch of `create_system_image_dump`:
`choice = input(...).strip() or "1"`; `"1"` selects the block-level `dd`,
and every other choice falls into the `else` branch, the recursive pull
of `/system`. -/
def chooseDumpMethod (input : Str) : DumpMethod :=
  let choice := stripS input
  let choice := if choice.isEmpty then strL "1" else choice
  if choice = strL "1" then DumpMethod.ddBlock else DumpMethod.pullSystem

example : pyInt (strL "0") = some 0 := by decide

example : pyInt (strL "-12") = some (-12) := by decide

example : pyInt (strL "1x") = none := by decide

example : choose_connected_device [(strL "emulator-5554", strL "device")] (strL "2") =
    none := by decide

example : choose_connected_device [(strL "emulator-5554", strL "device")] (strL "0") =
    some (strL "emulator-5554") := by decide

example : chooseDumpMethod (strL "3") = DumpMethod.pullSystem := by decide

example : chooseDumpMethod (strL " ") = DumpMethod.ddBlock := by decide

theorem startsWithS_append_self (q x : Str) : startsWithS q (q ++ x) = true := by
  induction q with
  | nil => rfl
  | cons c cs ih => simp [startsWithS, ih]

theorem dropWhile_idem_ws (l : Str) :
    (l.dropWhile Char.isWhitespace).dropWhile Char.isWhitespace =
      l.dropWhile Char.isWhitespace := by
  induction l with
  | nil => rfl
  | cons c cs ih =>
    by_cases h : Char.isWhitespace c
    · simp [List.dropWhile_cons, h, ih]
    · simp [List.dropWhile_cons, h]

theorem rstripS_idem (l : Str) : rstripS (rstripS l) = rstripS l := by
  simp [rstripS, dropWhile_idem_ws]

theorem rstripS_append_of_fixed (q v : Str) (hq : rstripS q = q) :
    rstripS (q ++ v) = q ++ rstripS v := by
  have hq' : q.reverse.dropWhile Char.isWhitespace = q.reverse := by
    have := congrArg List.reverse hq
    simpa [rstripS] using this
  unfold rstripS
  rw [List.reverse_append, List.dropWhile_append]
  by_cases h : (v.reverse.dropWhile Char.isWhitespace).isEmpty
  · have hv : v.reverse.dropWhile Char.isWhitespace = [] := by
      simpa [List.isEmpty_iff] using h
    simp [h, hv, hq']
  · simp [h]

theorem lstripS_cons_of_not_ws (c : Char) (h : Char.isWhitespace c = false) (v : Str) :
    lstripS (c :: v) = c :: v := by
  simp [lstripS, List.dropWhile_cons, h]

theorem stripS_id_line (v : Str) :
    stripS (strL "id:" ++ v) = strL "id:" ++ rstripS v := by
  have h1 : rstripS (strL "id:") = strL "id:" := by decide
  have h2 := rstripS_append_of_fixed (strL "id:") v h1
  unfold stripS
  rw [h2]
  exact lstripS_cons_of_not_ws 'i' (by decide) _

theorem stripS_name_line (v : Str) :
    stripS (strL "name:" ++ v) = strL "name:" ++ rstripS v := by
  have h1 : rstripS (strL "name:") = strL "name:" := by decide
  have h2 := rstripS_append_of_fixed (strL "name:") v h1
  unfold stripS
  rw [h2]
  exact lstripS_cons_of_not_ws 'n' (by decide) _

theorem afterFirstColon_id (v : Str) : afterFirstColon (strL "id:" ++ v) = v := by
  simp [afterFirstColon, strL, List.dropWhile_cons]

theorem afterFirstColon_name (v : Str) : afterFirstColon (strL "name:" ++ v) = v := by
  simp [afterFirstColon, strL, List.dropWhile_cons]

theorem stripS_rstripS (v : Str) : stripS (rstripS v) = stripS v := by
  simp [stripS, rstripS_idem]

theorem not_id_on_name_line (v : Str) :
    startsWithS (strL "id:") (strL "name:" ++ v) = false := by
  simp [strL, startsWithS]

theorem splitLinesAux_line (v : Str) (hv : '\n' ∉ v) (rest acc : Str) :
    splitLinesAux (v ++ '\n' :: rest) acc =
      (acc.reverse ++ v) :: (if rest.isEmpty then [] else splitLinesAux rest []) := by
  induction v generalizing acc with
  | nil => simp [splitLinesAux]
  | cons c cs ih =>
    have hc : (c == '\n') = false := by
      simp only [List.mem_cons] at hv
      simp only [beq_eq_false_iff_ne, ne_eq]
      exact fun h => hv (Or.inl h.symm)
    have hcs : '\n' ∉ cs := fun h => hv (List.mem_cons_of_mem _ h)
    simp only [List.cons_append, splitLinesAux, hc, Bool.false_eq_true, if_false,
      List.append_eq]
    rw [ih hcs]
    simp

theorem splitLinesS_line (v : Str) (hv : '\n' ∉ v) (rest : Str) :
    splitLinesS (v ++ '\n' :: rest) = v :: splitLinesS rest := by
  have hne : (v ++ '\n' :: rest).isEmpty = false := by
    cases v <;> simp
  unfold splitLinesS
  rw [hne]
  simp only [Bool.false_eq_true, if_false]
  rw [splitLinesAux_line v hv rest []]
  simp

/-- The catalog text made of well-formed `id:`/`name:` line pairs, each
line terminated by a newline. -/
def mkCatalogText : List (Str × Str) → Str
  | [] => []
  | (v, w) :: ps =>
    strL "id:" ++ v ++ '\n' :: (strL "name:" ++ w ++ '\n' :: mkCatalogText ps)

theorem splitLinesS_mkCatalogText (pairs : List (Str × Str))
    (h : ∀ p ∈ pairs, '\n' ∉ p.1 ∧ '\n' ∉ p.2) :
    splitLinesS (mkCatalogText pairs) =
      pairs.flatMap (fun p => [strL "id:" ++ p.1, strL "name:" ++ p.2]) := by
  induction pairs with
  | nil => rfl
  | cons p ps ih =>
    obtain ⟨v, w⟩ := p
    have hv : '\n' ∉ strL "id:" ++ v := by
      intro hm
      rcases List.mem_append.1 hm with hm | hm
      · revert hm; decide
      · exact (h (v, w) (List.mem_cons_self _ _)).1 hm
    have hw : '\n' ∉ strL "name:" ++ w := by
      intro hm
      rcases List.mem_append.1 hm with hm | hm
      · revert hm; decide
      · exact (h (v, w) (List.mem_cons_self _ _)).2 hm
    have hps : ∀ p ∈ ps, '\n' ∉ p.1 ∧ '\n' ∉ p.2 :=
      fun p hp => h p (List.mem_cons_of_mem _ hp)
    simp only [mkCatalogText]
    rw [show strL "id:" ++ v ++ '\n' :: (strL "name:" ++ w ++ '\n' :: mkCatalogText ps) =
          (strL "id:" ++ v) ++ '\n' :: ((strL "name:" ++ w) ++ '\n' :: mkCatalogText ps) by
        simp]
    rw [splitLinesS_line _ hv, splitLinesS_line _ hw, ih hps]
    simp [List.flatMap_cons]

theorem parseDeviceLines_cons (l : Str) (ls : List Str) (cur : Option DeviceRecord) :
    parseDeviceLines (l :: ls) cur =
      (let t := stripS l
       if t.isEmpty then
         parseDeviceLines ls cur
       else if startsWithS (strL "id:") t then
         cur.toList ++ parseDeviceLines ls (some ⟨stripS (afterFirstColon t), none⟩)
       else if startsWithS (strL "name:") t then
         match cur with
         | none => parseDeviceLines ls none
         | some c => parseDeviceLines ls (some ⟨c.id, some (stripS (afterFirstColon t))⟩)
       else
         parseDeviceLines ls cur) := rfl

theorem id_line_not_empty (v : Str) : (strL "id:" ++ v).isEmpty = false := rfl

theorem name_line_not_empty (v : Str) : (strL "name:" ++ v).isEmpty = false := rfl

theorem parseDeviceLines_pairs (pairs : List (Str × Str)) (cur : Option DeviceRecord) :
    parseDeviceLines
        (pairs.flatMap (fun p => [strL "id:" ++ p.1, strL "name:" ++ p.2])) cur =
      cur.toList ++ pairs.map (fun p => ⟨stripS p.1, some (stripS p.2)⟩) := by
  induction pairs generalizing cur with
  | nil => simp [parseDeviceLines]
  | cons p ps ih =>
    obtain ⟨v, w⟩ := p
    simp only [List.flatMap_cons, List.cons_append, List.nil_append]
    rw [parseDeviceLines_cons]
    simp only [stripS_id_line]
    rw [if_neg (by simp [id_line_not_empty]), if_pos (by rw [startsWithS_append_self]),
      afterFirstColon_id, stripS_rstripS]
    rw [parseDeviceLines_cons]
    simp only [stripS_name_line]
    rw [if_neg (by simp [name_line_not_empty]), if_neg (by simp [not_id_on_name_line]),
      if_pos (by rw [startsWithS_append_self]), afterFirstColon_name, stripS_rstripS]
    rw [ih]
    simp

/-- C2: for any catalog text consisting of N well-formed `id:`/`name:`
line pairs (no embedded newlines in the values), `list_avd_devices`
returns exactly N records, in the order of the pairs, each `id:` line
starting a record whose name is set by the following `name:` line. -/
theorem parser_wellformed_pairs (pairs : List (Str × Str))
    (h : ∀ p ∈ pairs, '\n' ∉ p.1 ∧ '\n' ∉ p.2) :
    list_avd_devices (mkCatalogText pairs) =
        pairs.map (fun p => ⟨stripS p.1, some (stripS p.2)⟩) ∧
      (list_avd_devices (mkCatalogText pairs)).length = pairs.length := by
  have hmain : list_avd_devices (mkCatalogText pairs) =
      pairs.map (fun p => ⟨stripS p.1, some (stripS p.2)⟩) := by
    unfold list_avd_devices
    rw [splitLinesS_mkCatalogText pairs h, parseDeviceLines_pairs]
    simp
  exact ⟨hmain, by rw [hmain]; simp⟩

theorem parser_wellformed_pairs_witness :
    list_avd_devices (mkCatalogText [(strL " 23 ", strL " Alpha"), (strL "7", strL "Beta ")]) =
      [⟨strL "23", some (strL "Alpha")⟩, ⟨strL "7", some (strL "Beta")⟩] :=
  (parser_wellformed_pairs
    [(strL " 23 ", strL " Alpha"), (strL "7", strL "Beta ")] (by decide)).1.trans (by decide)

/-- C7 counterexample: the input text `id:` yields a record whose `id`
field is the empty string, so not every parsed record has a non-empty
identifier. -/
theorem parser_empty_id_counterexample :
    (list_avd_devices (strL "id:")).all (fun r => !r.id.isEmpty) = false := by decide

theorem parseDeviceLines_id_ne_nil (lines : List Str)
    (h : ∀ l ∈ lines, startsWithS (strL "id:") (stripS l) = true →
      stripS (afterFirstColon (stripS l)) ≠ [])
    (cur : Option DeviceRecord) (hcur : ∀ c, cur = some c → c.id ≠ []) :
    ∀ r ∈ parseDeviceLines lines cur, r.id ≠ [] := by
  induction lines generalizing cur with
  | nil =>
    intro r hr
    cases cur with
    | none => simp [parseDeviceLines] at hr
    | some c =>
      simp [parseDeviceLines, Option.toList] at hr
      exact hr ▸ hcur c rfl
  | cons l ls ih =>
    have htail : ∀ l' ∈ ls, startsWithS (strL "id:") (stripS l') = true →
        stripS (afterFirstColon (stripS l')) ≠ [] :=
      fun l' hl' => h l' (List.mem_cons_of_mem _ hl')
    intro r hr
    rw [parseDeviceLines_cons] at hr
    simp only at hr
    by_cases he : (stripS l).isEmpty
    · rw [if_pos he] at hr
      exact ih htail cur hcur r hr
    · rw [if_neg he] at hr
      by_cases hid : startsWithS (strL "id:") (stripS l) = true
      · rw [if_pos hid] at hr
        rcases List.mem_append.1 hr with hr | hr
        · cases cur with
          | none => simp at hr
          | some c =>
            simp [Option.toList] at hr
            exact hr ▸ hcur c rfl
        · refine ih htail _ ?_ r hr
          intro c hc
          cases hc
          exact h l (List.mem_cons_self _ _) hid
      · rw [if_neg hid] at hr
        by_cases hname : startsWithS (strL "name:") (stripS l) = true
        · rw [if_pos hname] at hr
          cases cur with
          | none => exact ih htail none (by intro c hc; cases hc) r hr
          | some c =>
            refine ih htail _ ?_ r hr
            intro c' hc'
            cases hc'
            exact hcur c rfl
        · rw [if_neg hname] at hr
          exact ih htail cur hcur r hr

/-- C7 amended: every parsed record has an `id` field, and it is non-empty
provided every `id:` line of the input has non-blank text after the colon.
(The unconditional claim fails: the line `id:` yields an empty identifier.) -/
theorem parser_id_nonempty_amended (out : Str)
    (h : ∀ l ∈ splitLinesS out, startsWithS (strL "id:") (stripS l) = true →
      stripS (afterFirstColon (stripS l)) ≠ []) :
    ∀ r ∈ list_avd_devices out, r.id ≠ [] :=
  parseDeviceLines_id_ne_nil (splitLinesS out) h none (by intro c hc; cases hc)

theorem parser_id_nonempty_amended_witness :
    (⟨strL "23", some (strL "Alpha")⟩ : DeviceRecord).id ≠ [] :=
  parser_id_nonempty_amended (strL "id: 23\nname: Alpha") (by decide)
    ⟨strL "23", some (strL "Alpha")⟩ (by decide)

/-- C6 counterexample: at the dump-method prompt, the input `3` is neither
`1` nor `2`, yet the orchestrator executes the recursive-pull dump method
instead of reporting an invalid choice. -/
theorem dump_method_invalid_counterexample :
    chooseDumpMethod (strL "3") = DumpMethod.pullSystem := by decide

/-- C6 amended: the dump-method prompt never rejects an input: an empty
(stripped) input defaults to `1`, the input `1` selects the block-level
`dd` method, and every other input—valid or not—selects the recursive
pull of `/system`. -/
theorem dump_method_dispatch (s : Str) :
    (chooseDumpMethod s = DumpMethod.ddBlock ↔ stripS s = [] ∨ stripS s = strL "1") ∧
      (chooseDumpMethod s = DumpMethod.pullSystem ↔
        stripS s ≠ [] ∧ stripS s ≠ strL "1") := by
  unfold chooseDumpMethod
  by_cases he : stripS s = []
  · simp [he, List.isEmpty_iff]
  · have he' : (stripS s).isEmpty = false := by
      simpa [List.isEmpty_iff] using he
    by_cases h1 : stripS s = strL "1"
    · simp [he', h1]
    · simp [he', h1, he]

/-- C8: with exactly one connected device, the device-index input `2` is
out of range; the chooser catches the exception, returns `None`, and the
dump orchestrator aborts before prompting for a dump method. -/
theorem chooser_out_of_range_graceful :
    choose_connected_device [(strL "emulator-5554", strL "device")] (strL "2") = none ∧
      dumpProceeds
        (choose_connected_device [(strL "emulator-5554", strL "device")] (strL "2")) =
        false := by decide

theorem samsungPrimary_eq_find (devices : List DeviceRecord) :
    samsungPrimary devices = (devices.find? samsungNameHit).map DeviceRecord.id := by
  induction devices with
  | nil => rfl
  | cons d ds ih =>
    by_cases h : samsungNameHit d
    · simp [samsungPrimary, List.find?_cons, h]
    · simp [samsungPrimary, List.find?_cons, h, ih]

theorem fallbackScan_eq_find (f : Str) (devices : List DeviceRecord) :
    fallbackScan f devices = (devices.find? (fallbackHit f)).map DeviceRecord.id := by
  induction devices with
  | nil => rfl
  | cons d ds ih =>
    by_cases h : fallbackHit f d
    · simp [fallbackScan, List.find?_cons, h]
    · simp [fallbackScan, List.find?_cons, h, ih]

theorem pixel_eq_find (devices : List DeviceRecord) :
    create_pixel_device devices = (devices.find? pixelHit).map DeviceRecord.id := by
  induction devices with
  | nil => rfl
  | cons d ds ih =>
    by_cases h : pixelHit d
    · simp [create_pixel_device, List.find?_cons, h]
    · simp [create_pixel_device, List.find?_cons, h, ih]

theorem samsungFallbackLoop_none (fs : List Str) (devices : List DeviceRecord)
    (hids : ∀ d ∈ devices, d.id ≠ []) :
    samsungFallbackLoop fs devices none =
      fs.findSome? (fun f => (devices.find? (fallbackHit f)).map DeviceRecord.id) := by
  induction fs with
  | nil => rfl
  | cons f fs ih =>
    rw [samsungFallbackLoop]
    cases hf : devices.find? (fallbackHit f) with
    | none =>
      rw [fallbackScan_eq_find, hf]
      simp [List.findSome?_cons, hf, optTruthy, ih]
    | some d =>
      have hdd : d.id ≠ [] := hids d (List.mem_of_find?_eq_some hf)
      rw [fallbackScan_eq_find, hf]
      simp [List.findSome?_cons, hf, optTruthy, List.isEmpty_iff, hdd]

/-- C3 counterexample: in the catalog `[{id:"", name:"Galaxy"}, {id:"pixel_6",
name:"x"}]` the first record's name matches the keyword `galaxy`, but its
empty id is falsy, so the code falls through to the fallback scan and
returns `pixel_6` instead of the first matching record's identifier. -/
theorem samsung_primary_counterexample :
    (List.find? samsungNameHit
        [⟨[], some (strL "Galaxy")⟩, ⟨strL "pixel_6", some (strL "x")⟩]).map
        DeviceRecord.id = some [] ∧
      create_samsung_device
        [⟨[], some (strL "Galaxy")⟩, ⟨strL "pixel_6", some (strL "x")⟩] =
        some (strL "pixel_6") ∧
      some (strL "pixel_6") ≠ (some ([] : Str)) := by decide

/-- C3 amended: for any catalog whose first keyword-matching record has a
non-empty identifier, the Samsung selector returns that record's
identifier, in preference to any later record. -/
theorem samsung_primary_first_match (devices : List DeviceRecord) (d : DeviceRecord)
    (hfind : devices.find? samsungNameHit = some d) (hid : d.id ≠ []) :
    create_samsung_device devices = some d.id := by
  unfold create_samsung_device
  rw [samsungPrimary_eq_find, hfind]
  simp [optTruthy, List.isEmpty_iff, hid]

theorem samsung_primary_first_match_witness :
    create_samsung_device
        [⟨strL "9", some (strL "Galaxy Nexus")⟩, ⟨strL "2", some (strL "pixel")⟩] =
      some (strL "9") :=
  samsung_primary_first_match
    [⟨strL "9", some (strL "Galaxy Nexus")⟩, ⟨strL "2", some (strL "pixel")⟩]
    ⟨strL "9", some (strL "Galaxy Nexus")⟩ (by decide) (by decide)

/-- C1 counterexample: with no Samsung keyword in the catalog
`[{id:"a", name:"pixel_5"}, {id:"b", name:"pixel_6"}]`, the first catalog
entry matching any fallback string is `a` (via `pixel_5`), but the code
iterates the fallback strings in their fixed order first and returns `b`
(the `pixel_6` match). -/
theorem samsung_fallback_counterexample :
    (List.all [⟨strL "a", some (strL "pixel_5")⟩, ⟨strL "b", some (strL "pixel_6")⟩]
        (fun d => !samsungNameHit d)) = true ∧
      (List.find? (fun d => samsungFallbackList.any (fun f => fallbackHit f d))
          [⟨strL "a", some (strL "pixel_5")⟩, ⟨strL "b", some (strL "pixel_6")⟩]).map
          DeviceRecord.id = some (strL "a") ∧
      create_samsung_device
          [⟨strL "a", some (strL "pixel_5")⟩, ⟨strL "b", some (strL "pixel_6")⟩] =
        some (strL "b") ∧
      some (strL "b") ≠ some (strL "a") := by decide

/-- C1 amended: when no record's name matches a Samsung keyword (and every
record has a non-empty identifier), the selector iterates the fallback
strings in their fixed order and, for the first fallback string matched by
some entry, returns the identifier of the first catalog entry matching
that string. -/
theorem samsung_fallback_order (devices : List DeviceRecord)
    (h1 : ∀ d ∈ devices, samsungNameHit d = false)
    (h2 : ∀ d ∈ devices, d.id ≠ []) :
    create_samsung_device devices =
      samsungFallbackList.findSome?
        (fun f => (devices.find? (fallbackHit f)).map DeviceRecord.id) := by
  unfold create_samsung_device
  have hp : devices.find? samsungNameHit = none :=
    List.find?_eq_none.2 (fun d hd => by simp [h1 d hd])
  rw [samsungPrimary_eq_find, hp]
  simp only [Option.map_none', optTruthy, Bool.false_eq_true, if_false]
  exact samsungFallbackLoop_none _ _ h2

theorem samsung_fallback_order_witness :
    create_samsung_device
        [⟨strL "a", some (strL "pixel_5")⟩, ⟨strL "b", some (strL "pixel_6")⟩] =
      some (strL "b") :=
  (samsung_fallback_order _ (by decide) (by decide)).trans (by decide)

theorem samsungFallbackLoop_all_none (fs : List Str) (devices : List DeviceRecord)
    (h : ∀ f ∈ fs, devices.find? (fallbackHit f) = none) :
    samsungFallbackLoop fs devices none = none := by
  induction fs with
  | nil => rfl
  | cons f fs ih =>
    rw [samsungFallbackLoop, fallbackScan_eq_find, h f (List.mem_cons_self _ _)]
    simp [optTruthy, ih (fun f hf => h f (List.mem_cons_of_mem _ hf))]

/-- C5: when no record matches a Samsung keyword and no record matches any
fallback string, the Samsung selector returns `None`, and the AVD-creation
command is built without any `--device` argument. -/
theorem samsung_no_match_absent (devices : List DeviceRecord)
    (h1 : ∀ d ∈ devices, samsungNameHit d = false)
    (h2 : ∀ d ∈ devices, ∀ f ∈ samsungFallbackList, fallbackHit f d = false) :
    create_samsung_device devices = none ∧
      ∀ a nm : Str,
        avdCreateCmd a nm (sysImagePkg DEFAULT_API_LEVEL DEFAULT_TAG DEFAULT_ABI)
            (create_samsung_device devices) =
          [a, strL "create", strL "avd", strL "--name", nm, strL "--package",
           sysImagePkg DEFAULT_API_LEVEL DEFAULT_TAG DEFAULT_ABI, strL "--force"] := by
  have hnone : create_samsung_device devices = none := by
    unfold create_samsung_device
    have hp : devices.find? samsungNameHit = none :=
      List.find?_eq_none.2 (fun d hd => by simp [h1 d hd])
    rw [samsungPrimary_eq_find, hp]
    simp only [Option.map_none', optTruthy, Bool.false_eq_true, if_false]
    exact samsungFallbackLoop_all_none _ _
      (fun f hf => List.find?_eq_none.2 (fun d hd => by simp [h2 d hd f hf]))
  refine ⟨hnone, fun a nm => ?_⟩
  rw [hnone]
  simp [avdCreateCmd, optTruthy]

theorem samsung_no_match_absent_witness :
    create_samsung_device [⟨strL "foo", some (strL "bar")⟩] = none ∧
      avdCreateCmd (strL "avdmanager") (strL "Samsung_Device_AVD")
          (sysImagePkg DEFAULT_API_LEVEL DEFAULT_TAG DEFAULT_ABI)
          (create_samsung_device [⟨strL "foo", some (strL "bar")⟩]) =
        [strL "avdmanager", strL "create", strL "avd", strL "--name",
         strL "Samsung_Device_AVD", strL "--package",
         sysImagePkg DEFAULT_API_LEVEL DEFAULT_TAG DEFAULT_ABI, strL "--force"] :=
  ⟨(samsung_no_match_absent _ (by decide) (by decide)).1,
   (samsung_no_match_absent _ (by decide) (by decide)).2 _ _⟩

/-- C4: the Pixel selector returns the identifier of the first catalog
record whose name contains `pixel` or whose id contains `pixel_6` or
`pixel_3` (case-insensitive); and end-to-end, parsing the catalog text
`id: 23` / `name: "pixel_5"` makes the selector return `23` and puts
`--device 23` into the AVD-creation command. -/
theorem pixel_selector_spec :
    (∀ devices d, devices.find? pixelHit = some d →
        create_pixel_device devices = some d.id) ∧
      create_pixel_device (list_avd_devices (strL "id: 23\nname: \"pixel_5\"")) =
        some (strL "23") ∧
      avdCreateCmd (strL "avdmanager") (strL "Pixel_Device_AVD")
          (sysImagePkg DEFAULT_API_LEVEL DEFAULT_TAG DEFAULT_ABI)
          (create_pixel_device (list_avd_devices (strL "id: 23\nname: \"pixel_5\""))) =
        [strL "avdmanager", strL "create", strL "avd", strL "--name",
         strL "Pixel_Device_AVD", strL "--package",
         sysImagePkg DEFAULT_API_LEVEL DEFAULT_TAG DEFAULT_ABI, strL "--force",
         strL "--device", strL "23"] := by
  refine ⟨fun devices d hfind => ?_, by decide, by decide⟩
  rw [pixel_eq_find, hfind]
  rfl

theorem pixel_selector_spec_witness :
    create_pixel_device [⟨strL "5", some (strL "Pixel 4")⟩] = some (strL "5") :=
  pixel_selector_spec.1 [⟨strL "5", some (strL "Pixel 4")⟩]
    ⟨strL "5", some (strL "Pixel 4")⟩ (by decide)

/-- C9: with both tools found, `create_avd` first attempts the
system-image installation and then—whether or not the installation
fails—attempts AVD creation; the creation command always carries
`--force`, carries no `--device` argument when the profile is absent, and
carries `--device <profile>` when a (non-empty) profile is present. -/
theorem create_avd_two_steps (fails : List Str → Bool) (a s nm : Str)
    (profile : Option Str) (api : Str) :
    create_avd fails (some a) (some s) nm profile api =
        ([[s, sysImagePkg api DEFAULT_TAG DEFAULT_ABI],
          avdCreateCmd a nm (sysImagePkg api DEFAULT_TAG DEFAULT_ABI) profile], true) ∧
      strL "--force" ∈ avdCreateCmd a nm (sysImagePkg api DEFAULT_TAG DEFAULT_ABI) profile ∧
      (profile = none →
        avdCreateCmd a nm (sysImagePkg api DEFAULT_TAG DEFAULT_ABI) profile =
          [a, strL "create", strL "avd", strL "--name", nm, strL "--package",
           sysImagePkg api DEFAULT_TAG DEFAULT_ABI, strL "--force"]) ∧
      (∀ p : Str, profile = some p → p ≠ [] →
        avdCreateCmd a nm (sysImagePkg api DEFAULT_TAG DEFAULT_ABI) profile =
          [a, strL "create", strL "avd", strL "--name", nm, strL "--package",
           sysImagePkg api DEFAULT_TAG DEFAULT_ABI, strL "--force",
           strL "--device", p]) := by
  refine ⟨?_, ?_, ?_, ?_⟩
  · simp [create_avd, ensure_system_image, pcatch, runP, pseq]
  · by_cases h : optTruthy profile = true <;> simp [avdCreateCmd, h]
  · intro hp
    simp [avdCreateCmd, hp, optTruthy]
  · intro p hp hpne
    simp [avdCreateCmd, hp, optTruthy, List.isEmpty_iff, hpne]

theorem create_avd_two_steps_witness :
    create_avd (fun _ => true) (some (strL "avdmanager")) (some (strL "sdkmanager"))
        (strL "Samsung_Device_AVD") (some (strL "9")) DEFAULT_API_LEVEL =
      ([[strL "sdkmanager", sysImagePkg DEFAULT_API_LEVEL DEFAULT_TAG DEFAULT_ABI],
        [strL "avdmanager", strL "create", strL "avd", strL "--name",
         strL "Samsung_Device_AVD", strL "--package",
         sysImagePkg DEFAULT_API_LEVEL DEFAULT_TAG DEFAULT_ABI, strL "--force",
         strL "--device", strL "9"]], true) :=
  ((create_avd_two_steps (fun _ => true) (strL "avdmanager") (strL "sdkmanager")
      (strL "Samsung_Device_AVD") (some (strL "9")) DEFAULT_API_LEVEL).1).trans (by decide)

theorem pyIndex_neg_one {α : Type} (l : List α) (h : l ≠ []) :
    pyIndex l (-1) = some (l.getLast h) := by
  have hlen : 0 < l.length := List.length_pos.2 h
  have hneg : ((-1 : Int) < 0) := by omega
  have hle : (0 : Int) ≤ -1 + l.length := by omega
  simp only [pyIndex, hneg, if_true, if_pos hle]
  have htn : ((-1 : Int) + l.length).toNat = l.length - 1 := by omega
  rw [htn, List.get?_eq_get (by omega), List.getLast_eq_get]

/-- C10: although device indices are presented 1-based, the input `0` with
a non-empty device list is accepted: the computed index is `-1`, which
Python resolves to the last listed device, whose serial is returned. -/
theorem chooser_zero_returns_last (devices : List (Str × Str)) (h : devices ≠ []) :
    choose_connected_device devices (strL "0") = some (devices.getLast h).1 := by
  have hne : devices.isEmpty = false := by simpa [List.isEmpty_iff] using h
  have e1 : (if (stripS (strL "0")).isEmpty = true then strL "1" else stripS (strL "0")) =
      strL "0" := by decide
  simp only [choose_connected_device, hne, Bool.false_eq_true, if_false, e1]
  have e2 : pyInt (strL "0") = some 0 := by decide
  rw [e2]
  show Option.map Prod.fst (pyIndex devices ((0 : Int) - 1)) = some (devices.getLast h).1
  have e3 : (0 : Int) - 1 = -1 := by norm_num
  rw [e3, pyIndex_neg_one devices h]
  rfl

theorem chooser_zero_returns_last_witness :
    choose_connected_device [(strL "emulator-5554", strL "device")] (strL "0") =
      some (strL "emulator-5554") :=
  (chooser_zero_returns_last [(strL "emulator-5554", strL "device")]
    (by decide)).trans (by decide)
